import Mathlib

/-!
# AirCommand scheduling core: a shallow embedding

This file embeds the scheduling core of the AirCommand repository
(`internal/control`: the runway scheduler, the metrics aggregator and the
flight generator) as executable Lean definitions, and proves the spec's
claims about it.

Modelling conventions:

* Go `float64` headings are modelled as exact rationals (`ℚ`).  Every
  operation the code performs on headings (`+`, `-`, `math.Mod` by 360,
  `math.Abs`, `math.Copysign`) is exact on the values of interest, so the
  rational model coincides with the float semantics there; float rounding
  itself is not modelled.
* Go `int64` / `int` values are modelled as `ℤ` / `ℕ`; no operation in the
  embedded code can overflow on the inputs considered, so no wrap-around is
  modelled.
* `time.Time` / `time.Duration` are modelled as integer nanosecond counts.
  Each mutating scheduler operation receives the instant `now` at which it
  runs; the several `time.Now()` reads inside one locked critical section
  are collapsed to that single instant.
* Go maps are modelled as functions into `Option`; a zero-value read of a
  missing key (`rm.vectors[f.ID]`) becomes `(…).getD 0`, a two-value read
  becomes a `match` on the option.
* The scheduler's mutex serialises all mutating operations, so the embedding
  is the sequential state-transition semantics of those operations.  The
  asynchronous landing goroutine is the `completeLanding` transition, applied
  at the (later) instant at which it fires.
* The `rm.metrics == nil` guards are dropped: the server wiring always
  constructs the manager with a metrics collector, and every claim about
  metrics presumes one, so `metrics` is a plain field here.
* `revectorLocked` ranges over the `assigned` Go map, whose iteration order
  is unspecified; the embedding iterates the fixed `order` list (the map's
  key set).  The per-flight vector updates are independent of one another
  for flights sitting in a single queue, so this fixes no behaviour the Go
  code does not have.
-/

namespace AirCommand

/-! ## Angle arithmetic (helpers at the bottom of the scheduler file) -/

/-- Truncation toward zero, as Go's `math.Trunc` / the rounding used by
`math.Mod`. -/
def ratTrunc (q : ℚ) : ℤ := if q < 0 then ⌈q⌉ else ⌊q⌋

/-- Go's `math.Mod(x, 360)`: the exact remainder `x - 360*Trunc(x/360)`,
whose sign agrees with `x` and whose magnitude is below 360. -/
def goMod360 (x : ℚ) : ℚ := x - 360 * (ratTrunc (x / 360) : ℚ)

/-- `normalizeHeading`: reduce a heading in degrees to `[0, 360)`. -/
def normalizeHeading (deg : ℚ) : ℚ :=
  let d := goMod360 deg
  if d < 0 then d + 360 else d

/-- `normalizeDirection`: reduce an integer wind direction to `[0, 360)`.
Go's `%` on `int64` truncates toward zero, which is `Int.tmod`. -/
def normalizeDirection (dir : ℤ) : ℤ :=
  let d := Int.tmod dir 360
  if d < 0 then d + 360 else d

/-- `signedAngularDiff(from, to)`: signed shortest-path angular difference,
normalised into `(-180, 180]` (the `-180` case is mapped to `180`). -/
def signedAngularDiff (src dst : ℚ) : ℚ :=
  let diff := goMod360 (dst - src + 540) - 180
  if diff = -180 then 180 else diff

/-- `angularDiff`: absolute shortest-path angular difference. -/
def angularDiff (a b : ℚ) : ℚ := |signedAngularDiff a b|

/-- `maxInt64`. -/
def maxInt64 (a b : ℤ) : ℤ := if a > b then a else b

/-- `minArrivalSpacing = 2 * time.Second`, in nanoseconds. -/
def minArrivalSpacing : ℤ := 2000000000

/-! ## Data model -/

/-- A generated flight (`Flight`); the callsign only feeds log output. -/
structure Flight where
  id : ℤ
  call : String
  createdAt : ℤ
deriving DecidableEq

/-- `WindState`: speed in knots and direction in degrees true. -/
structure WindState where
  speed : ℤ
  direction : ℤ
deriving DecidableEq

/-- `RunwayDefinition`: name and reference threshold heading. -/
structure RunwayDefinition where
  name : String
  heading : ℚ
deriving DecidableEq

/-- `runwayState`: definition, open flag and derived active heading.
(`open` is a Lean keyword, hence the field name `isOpen`.) -/
structure RunwayState where
  definition : RunwayDefinition
  isOpen : Bool
  activeHeading : ℚ
deriving DecidableEq

/-! ## Metrics aggregator (`metrics.go`) -/

/-- `SchedulerMetrics`: the aggregator's counters and gauges.  Cumulative
wait and landing totals are in microseconds, as stored by the code. -/
structure SchedulerMetrics where
  queues : String → Option ℤ
  holdingCurrent : ℤ
  holdingTotal : ℤ
  arrivals : ℤ
  totalWaitMicros : ℤ
  landings : ℤ
  totalLandingMicros : ℤ
  conflicts : ℤ

/-- `MetricsSnapshot`: the read-only view `Snapshot` returns; the two
averages are seconds as exact rationals (float64 division in the code). -/
structure MetricsSnapshot where
  totalArrivals : ℤ
  averageWaitSeconds : ℚ
  averageLandingTime : ℚ
  holdingCurrent : ℤ
  holdingPatterns : ℤ
  queueLengths : String → Option ℤ
  conflicts : ℤ

/-- `NewSchedulerMetrics`: one zeroed queue gauge per supplied runway name. -/
def NewSchedulerMetrics (runways : List String) : SchedulerMetrics where
  queues := fun n => if n ∈ runways then some 0 else none
  holdingCurrent := 0
  holdingTotal := 0
  arrivals := 0
  totalWaitMicros := 0
  landings := 0
  totalLandingMicros := 0
  conflicts := 0

/-- `RecordAssignment`: count an arrival and accumulate its wait
(`wait.Microseconds()` is nanoseconds divided by 1000, truncated). -/
def RecordAssignment (wait : ℤ) (m : SchedulerMetrics) : SchedulerMetrics :=
  { m with arrivals := m.arrivals + 1
           totalWaitMicros := m.totalWaitMicros + Int.tdiv wait 1000 }

/-- `RecordLanding`: count a landing and accumulate its duration. -/
def RecordLanding (duration : ℤ) (m : SchedulerMetrics) : SchedulerMetrics :=
  { m with landings := m.landings + 1
           totalLandingMicros := m.totalLandingMicros + Int.tdiv duration 1000 }

/-- `RecordHoldingPattern`: bump the lifetime holding count. -/
def RecordHoldingPattern (m : SchedulerMetrics) : SchedulerMetrics :=
  { m with holdingTotal := m.holdingTotal + 1 }

/-- `RecordConflict`: bump the conflict counter. -/
def RecordConflict (m : SchedulerMetrics) : SchedulerMetrics :=
  { m with conflicts := m.conflicts + 1 }

/-- `SetHolding`: store the current holding gauge. -/
def SetHolding (count : ℤ) (m : SchedulerMetrics) : SchedulerMetrics :=
  { m with holdingCurrent := count }

/-- `UpdateQueueLength`: store a runway's queue gauge; unknown runway names
are ignored. -/
def UpdateQueueLength (runway : String) (count : ℤ) (m : SchedulerMetrics) :
    SchedulerMetrics :=
  match m.queues runway with
  | none => m
  | some _ => { m with queues := fun n => if n = runway then some count else m.queues n }

/-- `Snapshot`: copy the counters and derive the two averages, guarding the
zero-count cases with 0.0. -/
def Snapshot (m : SchedulerMetrics) : MetricsSnapshot :=
  let waitAvg : ℚ :=
    if 0 < m.arrivals then (m.totalWaitMicros : ℚ) / (m.arrivals : ℚ) / 1000000 else 0
  let landingAvg : ℚ :=
    if 0 < m.landings then (m.totalLandingMicros : ℚ) / (m.landings : ℚ) / 1000000 else 0
  { totalArrivals := m.arrivals
    averageWaitSeconds := waitAvg
    averageLandingTime := landingAvg
    holdingCurrent := m.holdingCurrent
    holdingPatterns := m.holdingTotal
    queueLengths := m.queues
    conflicts := m.conflicts }

/-! ## Runway scheduler state -/

/-- `RunwayManager`: all scheduler state guarded by the mutex, plus the
metrics collector it reports into. -/
structure RunwayManager where
  runways : String → Option RunwayState
  assigned : String → List Flight
  vectors : ℤ → Option ℚ
  holding : List Flight
  order : List String
  nextIdx : ℕ
  wind : WindState
  lastUse : String → Option ℤ
  metrics : SchedulerMetrics

/-- `bestHeading`: choose between a runway's definition heading and its
reciprocal.  Calm wind keeps the definition heading; otherwise the candidate
with the smaller absolute angular difference from the wind direction wins,
ties favouring the definition heading. -/
def bestHeading (wind : WindState) (dfn : RunwayDefinition) : ℚ :=
  let base := normalizeHeading dfn.heading
  let reciprocal := normalizeHeading (dfn.heading + 180)
  if wind.speed = 0 then base
  else
    let windDir : ℚ := (wind.direction : ℚ)
    if angularDiff windDir base ≤ angularDiff windDir reciprocal then base
    else reciprocal

/-- `updateActiveHeadingsLocked`: recompute every runway's active heading. -/
def updateActiveHeadings (rm : RunwayManager) : RunwayManager :=
  { rm with runways := fun n => ((rm.runways n).map fun r =>
      { r with activeHeading := bestHeading rm.wind r.definition }) }

/-- `openRunwaysLocked`: the currently open runway names in scheduling
order.  Every name in `order` has a `runways` entry by construction; a
missing entry reads as closed here where the Go code would panic. -/
def openRunways (rm : RunwayManager) : List String :=
  rm.order.filter fun n => ((rm.runways n).map RunwayState.isOpen).getD false

/-- `nextRunway`: round-robin pick over the open runways; the cursor only
advances on a successful pick.  Go signals "no runway" with `""`; the model
uses `none`. -/
def nextRunway (rm : RunwayManager) : Option String × RunwayManager :=
  let opn := openRunways rm
  if opn.length = 0 then (none, rm)
  else (opn[rm.nextIdx % opn.length]?, { rm with nextIdx := rm.nextIdx + 1 })

/-- `smoothVector`: a zero current heading (the map's missing-key default)
snaps to the target; otherwise move toward the target along the signed
shortest path, clamped to ±35 degrees, and re-normalise. -/
def smoothVector (current target : ℚ) : ℚ :=
  if current = 0 then target
  else
    let delta := signedAngularDiff current target
    let delta := if 35 < |delta| then (if delta < 0 then -35 else 35) else delta
    normalizeHeading (current + delta)

/-- `recordAssignmentLocked`. -/
def recordAssignmentLocked (wait : ℤ) (rm : RunwayManager) : RunwayManager :=
  { rm with metrics := RecordAssignment wait rm.metrics }

/-- `recordHoldingLocked`: `count` separate `RecordHoldingPattern` calls. -/
def recordHoldingLocked (count : ℕ) (rm : RunwayManager) : RunwayManager :=
  { rm with metrics := RecordHoldingPattern^[count] rm.metrics }

/-- `publishHoldingLocked`. -/
def publishHoldingLocked (rm : RunwayManager) : RunwayManager :=
  { rm with metrics := SetHolding (rm.holding.length : ℤ) rm.metrics }

/-- `publishQueuesLocked`. -/
def publishQueuesLocked (runway : String) (rm : RunwayManager) : RunwayManager :=
  { rm with metrics := UpdateQueueLength runway ((rm.assigned runway).length : ℤ) rm.metrics }

/-- `detectConflictLocked`: a previous use of the runway within the minimum
spacing window records a conflict. -/
def detectConflictLocked (now : ℤ) (runway : String) (rm : RunwayManager) :
    RunwayManager :=
  match rm.lastUse runway with
  | none => rm
  | some last =>
      if now - last < minArrivalSpacing then
        { rm with metrics := RecordConflict rm.metrics }
      else rm

/-- The holding branch of `AssignFlight` (`runway == ""`). -/
def holdFlight (f : Flight) (rm : RunwayManager) : RunwayManager :=
  publishHoldingLocked (recordHoldingLocked 1 { rm with holding := rm.holding ++ [f] })

/-- The success branch of `AssignFlight`: append to the queue, smooth the
flight's vector toward the runway's active heading, record the wait, run
conflict detection, stamp last use and publish the queue gauge. -/
def assignToRunway (now : ℤ) (f : Flight) (runway : String) (rm : RunwayManager) :
    RunwayManager :=
  let rm := { rm with assigned := fun n =>
      (if n = runway then rm.assigned runway ++ [f] else rm.assigned n) }
  let target := ((rm.runways runway).map RunwayState.activeHeading).getD 0
  let rm := { rm with vectors := fun i =>
      (if i = f.id then some (smoothVector ((rm.vectors f.id).getD 0) target)
       else rm.vectors i) }
  let rm := recordAssignmentLocked (now - f.createdAt) rm
  let rm := detectConflictLocked now runway rm
  let rm := { rm with lastUse := fun n => if n = runway then some now else rm.lastUse n }
  publishQueuesLocked runway rm

/-- `AssignFlight`: recompute active headings, pick a runway round-robin,
then either divert to holding or assign.  The spawned landing goroutine is
the separate `completeLanding` transition. -/
def AssignFlight (now : ℤ) (f : Flight) (rm : RunwayManager) : RunwayManager :=
  let rm := updateActiveHeadings rm
  match nextRunway rm with
  | (none, rm) => holdFlight f rm
  | (some runway, rm) => assignToRunway now f runway rm

/-- Drop the first flight with the given id, as the splice loop in
`completeLanding` does. -/
def removeFirstById (id : ℤ) : List Flight → List Flight
  | [] => []
  | f :: fs => if f.id = id then fs else f :: removeFirstById id fs

/-- `completeLanding`: after the fixed landing sleep, remove the flight from
its runway queue, publish the queue gauge and record the landing duration.
Note that `rm.vectors` is left untouched. -/
def completeLanding (now : ℤ) (runway : String) (f : Flight) (assignedAt : ℤ)
    (rm : RunwayManager) : RunwayManager :=
  let rm := { rm with assigned := fun n =>
      (if n = runway then removeFirstById f.id (rm.assigned runway) else rm.assigned n) }
  let rm := publishQueuesLocked runway rm
  { rm with metrics := RecordLanding (now - assignedAt) rm.metrics }

/-- One step of the inner loop of `revectorLocked`. -/
def revectorFlight (target : ℚ) (rm : RunwayManager) (f : Flight) : RunwayManager :=
  { rm with vectors := fun i =>
      (if i = f.id then some (smoothVector ((rm.vectors f.id).getD 0) target)
       else rm.vectors i) }

/-- `revectorLocked`, one runway: smooth every assigned flight's vector
toward the runway's active heading. -/
def revectorRunway (rm : RunwayManager) (runway : String) : RunwayManager :=
  let target := ((rm.runways runway).map RunwayState.activeHeading).getD 0
  (rm.assigned runway).foldl (revectorFlight target) rm

/-- `revectorLocked`: re-vector all assigned flights. -/
def revectorLocked (rm : RunwayManager) : RunwayManager :=
  rm.order.foldl revectorRunway rm

/-- `SetWind`: clamp the speed, normalise the direction, recompute active
headings and re-vector everything. -/
def SetWind (speed direction : ℤ) (rm : RunwayManager) : RunwayManager :=
  let rm := { rm with wind := { speed := maxInt64 speed 0
                                direction := normalizeDirection direction } }
  revectorLocked (updateActiveHeadings rm)

/-- `SetRunwayClosed`: unknown runways are ignored; closing an open runway
diverts its queue to holding; opening a closed runway drains holding back
through `AssignFlight` in original order. -/
def SetRunwayClosed (now : ℤ) (runway : String) (closed : Bool)
    (rm : RunwayManager) : RunwayManager :=
  match rm.runways runway with
  | none => rm
  | some r =>
    if closed then
      if !r.isOpen then rm
      else
        let rm := { rm with runways := fun n =>
            (if n = runway then some { r with isOpen := false } else rm.runways n) }
        let diverted := rm.assigned runway
        if 0 < diverted.length then
          let rm := { rm with holding := rm.holding ++ diverted,
                              assigned := fun n =>
                                if n = runway then [] else rm.assigned n }
          let rm := publishQueuesLocked runway rm
          publishHoldingLocked (recordHoldingLocked diverted.length rm)
        else rm
    else
      if r.isOpen then rm
      else
        let rm := { rm with runways := fun n =>
            (if n = runway then some { r with isOpen := true } else rm.runways n) }
        let held := rm.holding
        let rm := publishHoldingLocked { rm with holding := [] }
        held.foldl (fun s f => AssignFlight now f s) rm

/-- `NewRunwayManager`: all runways start open with their normalised
definition heading, then active headings are derived once. -/
def NewRunwayManager (defs : List RunwayDefinition) (metrics : SchedulerMetrics) :
    RunwayManager :=
  let base : RunwayManager :=
    { runways := fun _ => none
      assigned := fun _ => []
      vectors := fun _ => none
      holding := []
      order := []
      nextIdx := 0
      wind := { speed := 0, direction := 0 }
      lastUse := fun _ => none
      metrics := metrics }
  let rm := defs.foldl (fun s r =>
    { s with
      runways := fun n =>
        if n = r.name then
          some { definition := r, isOpen := true,
                 activeHeading := normalizeHeading r.heading }
        else s.runways n,
      order := s.order ++ [r.name] }) base
  updateActiveHeadings rm

/-! ## Flight generator (`generator.go`) -/

/-- `Generator`: arrival rate (planes per minute) and the id counter. -/
structure Generator where
  ratePerMinute : ℤ
  nextID : ℤ
deriving DecidableEq

/-- `NewGenerator`: a non-positive default rate is clamped to 1. -/
def NewGenerator (defaultRate : ℤ) : Generator :=
  { ratePerMinute := if defaultRate ≤ 0 then 1 else defaultRate, nextID := 0 }

/-- `SetRate`: a non-positive rate is clamped to 1 before being stored. -/
def SetRate (rate : ℤ) (g : Generator) : Generator :=
  { g with ratePerMinute := if rate ≤ 0 then 1 else rate }

/-- `Rate`: the current effective rate, re-clamped on read. -/
def Rate (g : Generator) : ℤ :=
  if g.ratePerMinute ≤ 0 then 1 else g.ratePerMinute

/-! ## Angle arithmetic lemmas -/

theorem ratTrunc_of_nonneg {q : ℚ} (h : 0 ≤ q) : ratTrunc q = ⌊q⌋ := by
  simp [ratTrunc, not_lt.mpr h]

theorem goMod360_eq_sub {x : ℚ} (k : ℤ) (hk : 0 ≤ k) (h1 : 360 * (k : ℚ) ≤ x)
    (h2 : x < 360 * ((k : ℚ) + 1)) : goMod360 x = x - 360 * (k : ℚ) := by
  have hx : 0 ≤ x := le_trans (by positivity) h1
  have h360 : (0 : ℚ) < 360 := by norm_num
  have hfl : ⌊x / 360⌋ = k := by
    rw [Int.floor_eq_iff]
    constructor
    · rw [le_div_iff₀ h360]
      linarith
    · rw [div_lt_iff₀ h360]
      linarith
  rw [goMod360, ratTrunc_of_nonneg (div_nonneg hx h360.le), hfl]

theorem goMod360_bounds {x : ℚ} (h : 0 ≤ x) :
    0 ≤ goMod360 x ∧ goMod360 x < 360 := by
  have h360 : (0 : ℚ) < 360 := by norm_num
  have hxe : 360 * (x / 360) = x := by field_simp
  have hfl : (⌊x / 360⌋ : ℚ) ≤ x / 360 := Int.floor_le _
  have hlt : x / 360 < (⌊x / 360⌋ : ℚ) + 1 := Int.lt_floor_add_one _
  rw [goMod360, ratTrunc_of_nonneg (div_nonneg h h360.le)]
  constructor
  · nlinarith
  · nlinarith

theorem goMod360_neg_eq {x : ℚ} (h : x < 0) : goMod360 x = -goMod360 (-x) := by
  have hq : x / 360 < 0 := by
    apply div_neg_of_neg_of_pos h
    norm_num
  have hq' : 0 ≤ -x / 360 := by
    apply div_nonneg (by linarith)
    norm_num
  have hceil : ratTrunc (x / 360) = -⌊-x / 360⌋ := by
    rw [ratTrunc, if_pos hq, neg_div, Int.floor_neg]
    ring
  rw [goMod360, goMod360, hceil, ratTrunc_of_nonneg hq']
  push_cast
  ring

theorem goMod360_eq_self {x : ℚ} (h1 : 0 ≤ x) (h2 : x < 360) : goMod360 x = x := by
  have h := goMod360_eq_sub 0 le_rfl (by push_cast; linarith) (by push_cast; linarith)
  simpa using h

theorem normalizeHeading_bounds (x : ℚ) :
    0 ≤ normalizeHeading x ∧ normalizeHeading x < 360 := by
  rcases le_or_lt 0 x with hx | hx
  · obtain ⟨h0, h1⟩ := goMod360_bounds hx
    rw [normalizeHeading]
    split
    · constructor <;> linarith
    · exact ⟨h0, h1⟩
  · obtain ⟨h0, h1⟩ := goMod360_bounds (x := -x) (by linarith)
    have hneg := goMod360_neg_eq hx
    rw [normalizeHeading]
    split
    · rename_i hlt
      rw [hneg] at hlt ⊢
      constructor <;> linarith
    · rename_i hge
      rw [not_lt, hneg] at hge
      rw [hneg]
      constructor <;> linarith

theorem signedAngularDiff_range {a b : ℚ} (_ha0 : 0 ≤ a) (ha : a < 360)
    (hb0 : 0 ≤ b) (_hb : b < 360) :
    -180 < signedAngularDiff a b ∧ signedAngularDiff a b ≤ 180 := by
  obtain ⟨h0, h1⟩ := goMod360_bounds (x := b - a + 540) (by linarith)
  rw [signedAngularDiff]
  split
  · norm_num
  · rename_i hne
    constructor
    · rcases lt_or_eq_of_le (by linarith : (-180 : ℚ) ≤ goMod360 (b - a + 540) - 180) with h | h
      · exact h
      · exact absurd h.symm hne
    · linarith

/-- Adding `d` with `|d| ≤ 35` to a normalised heading and re-normalising
moves the heading by exactly `d` along the signed shortest path. -/
theorem signedAngularDiff_normalize_add {a d : ℚ} (ha0 : 0 ≤ a) (ha : a < 360)
    (hd : |d| ≤ 35) : signedAngularDiff a (normalizeHeading (a + d)) = d := by
  rw [abs_le] at hd
  obtain ⟨hd0, hd1⟩ := hd
  have hne : d ≠ -180 := by intro h; rw [h] at hd0; norm_num at hd0
  -- normalizeHeading (a + d) = a + d + 360 * c with c ∈ {-1, 0, 1}
  have key : ∃ c : ℚ, (c = -1 ∨ c = 0 ∨ c = 1) ∧
      normalizeHeading (a + d) = a + d + 360 * c := by
    rcases lt_or_le (a + d) 0 with hs | hs
    · refine ⟨1, Or.inr (Or.inr rfl), ?_⟩
      have hmodneg : goMod360 (a + d) = a + d := by
        rw [goMod360_neg_eq hs, goMod360_eq_self (by linarith) (by linarith)]
        ring
      rw [normalizeHeading, hmodneg, if_pos hs]
      ring
    · rcases lt_or_le (a + d) 360 with hs' | hs'
      · refine ⟨0, Or.inr (Or.inl rfl), ?_⟩
        have hmod : goMod360 (a + d) = a + d :=
          goMod360_eq_self (by linarith) (by linarith)
        rw [normalizeHeading, hmod, if_neg (not_lt.mpr hs)]
        ring
      · refine ⟨-1, Or.inl rfl, ?_⟩
        have hmod : goMod360 (a + d) = a + d - 360 := by
          rw [goMod360_eq_sub 1 (by norm_num) (by push_cast; linarith)
            (by push_cast; linarith)]
          push_cast
          ring
        rw [normalizeHeading, hmod, if_neg (by intro hcon; linarith)]
        ring
  obtain ⟨c, hc, hb⟩ := key
  rw [hb, signedAngularDiff]
  have harg : a + d + 360 * c - a + 540 = d + 540 + 360 * c := by ring
  have hmod : goMod360 (a + d + 360 * c - a + 540) = d + 180 := by
    rw [harg]
    rcases hc with rfl | rfl | rfl
    · rw [goMod360_eq_self (by linarith) (by linarith)]
      ring
    · rw [goMod360_eq_sub 1 (by norm_num) (by push_cast; linarith) (by push_cast; linarith)]
      push_cast
      ring
    · rw [goMod360_eq_sub 2 (by norm_num) (by push_cast; linarith) (by push_cast; linarith)]
      push_cast
      ring
  rw [hmod]
  rw [if_neg]
  · ring
  · intro hcon
    apply hne
    linarith

theorem angularDiff_normalize_add {a d : ℚ} (ha0 : 0 ≤ a) (ha : a < 360)
    (hd : |d| ≤ 35) : angularDiff a (normalizeHeading (a + d)) = |d| := by
  rw [angularDiff, signedAngularDiff_normalize_add ha0 ha hd]

/-!
## Claim C1 (amended part) and claim C10: heading smoothing
-/

/-- Claim C1 (amended): re-vectoring from a nonzero tracked heading in
`[0,360)` toward a target in `[0,360)` changes the heading by at most 35
degrees of angular distance, and the result is again normalised to
`[0,360)`.  (The zero-heading snap carved out of the original claim is
claim C10's theorem.) -/
theorem smoothVector_turn_bound (current target : ℚ) (h0 : 0 < current)
    (h1 : current < 360) (_h2 : 0 ≤ target) (_h3 : target < 360) :
    angularDiff current (smoothVector current target) ≤ 35
    ∧ 0 ≤ smoothVector current target ∧ smoothVector current target < 360 := by
  have hne : current ≠ 0 := ne_of_gt h0
  have hsm : smoothVector current target =
      normalizeHeading (current +
        (if 35 < |signedAngularDiff current target| then
          (if signedAngularDiff current target < 0 then -35 else 35)
        else signedAngularDiff current target)) := by
    simp only [smoothVector, if_neg hne]
  have hdle : |(if 35 < |signedAngularDiff current target| then
      (if signedAngularDiff current target < 0 then -35 else 35)
      else signedAngularDiff current target)| ≤ 35 := by
    split
    · split <;> norm_num
    · rename_i h
      exact le_of_not_lt h
  refine ⟨?_, ?_⟩
  · rw [hsm, angularDiff_normalize_add h0.le h1 hdle]
    exact hdle
  · rw [hsm]
    exact normalizeHeading_bounds _

/-- Witness for `smoothVector_turn_bound`: a 90-degree heading retargeted to
270 turns by exactly the 35-degree clamp. -/
theorem smoothVector_turn_bound_witness :
    angularDiff 90 (smoothVector 90 270) ≤ 35
    ∧ 0 ≤ smoothVector 90 270 ∧ smoothVector 90 270 < 360 :=
  smoothVector_turn_bound 90 270 (by norm_num) (by norm_num) (by norm_num)
    (by norm_num)

/-- Claim C10: a tracked heading of exactly 0 — whether the `vectors` map
default for a never-assigned flight or a legitimately produced 0-degree
heading — makes `smoothVector` return the target directly, with no per-step
turn limit. -/
theorem smoothVector_zero_snaps (v : Option ℚ) (target : ℚ)
    (h : v = none ∨ v = some 0) : smoothVector (v.getD 0) target = target := by
  rcases h with rfl | rfl <;> simp [smoothVector]

/-- Witness for `smoothVector_zero_snaps`: the missing-entry default and a
genuine 0-degree heading snap identically. -/
theorem smoothVector_zero_snaps_witness :
    smoothVector ((none : Option ℚ).getD 0) 123 = 123
    ∧ smoothVector ((some (0 : ℚ)).getD 0) 200 = 200 :=
  ⟨smoothVector_zero_snaps none 123 (Or.inl rfl),
   smoothVector_zero_snaps (some 0) 200 (Or.inr rfl)⟩

/-!
## Claim C2: active-heading selection
-/

/-- Claim C2: the computed active heading is always one of the two
normalised candidates (definition heading and reciprocal), lies in
`[0,360)`, equals the definition heading in calm wind, and under nonzero
wind minimises the absolute angular difference to the wind direction with
ties favouring the definition heading. -/
theorem bestHeading_spec (wind : WindState) (dfn : RunwayDefinition) :
    (bestHeading wind dfn = normalizeHeading dfn.heading ∨
      bestHeading wind dfn = normalizeHeading (dfn.heading + 180))
    ∧ (0 ≤ bestHeading wind dfn ∧ bestHeading wind dfn < 360)
    ∧ (wind.speed = 0 → bestHeading wind dfn = normalizeHeading dfn.heading)
    ∧ (wind.speed ≠ 0 →
        angularDiff (wind.direction : ℚ) (bestHeading wind dfn) ≤
          angularDiff (wind.direction : ℚ) (normalizeHeading dfn.heading)
        ∧ angularDiff (wind.direction : ℚ) (bestHeading wind dfn) ≤
          angularDiff (wind.direction : ℚ) (normalizeHeading (dfn.heading + 180))
        ∧ (angularDiff (wind.direction : ℚ) (normalizeHeading dfn.heading) =
            angularDiff (wind.direction : ℚ) (normalizeHeading (dfn.heading + 180)) →
          bestHeading wind dfn = normalizeHeading dfn.heading)) := by
  by_cases hs : wind.speed = 0
  · have hval : bestHeading wind dfn = normalizeHeading dfn.heading := by
      simp only [bestHeading, if_pos hs]
    rw [hval]
    exact ⟨Or.inl rfl, normalizeHeading_bounds _, fun _ => rfl,
      fun hns => absurd hs hns⟩
  · by_cases hcmp : angularDiff (wind.direction : ℚ) (normalizeHeading dfn.heading) ≤
        angularDiff (wind.direction : ℚ) (normalizeHeading (dfn.heading + 180))
    · have hval : bestHeading wind dfn = normalizeHeading dfn.heading := by
        simp only [bestHeading, if_neg hs, if_pos hcmp]
      rw [hval]
      exact ⟨Or.inl rfl, normalizeHeading_bounds _, fun h => absurd h hs,
        fun _ => ⟨le_refl _, hcmp, fun _ => rfl⟩⟩
    · have hval : bestHeading wind dfn = normalizeHeading (dfn.heading + 180) := by
        simp only [bestHeading, if_neg hs, if_neg hcmp]
      push_neg at hcmp
      rw [hval]
      refine ⟨Or.inr rfl, normalizeHeading_bounds _, fun h => absurd h hs,
        fun _ => ⟨hcmp.le, le_refl _, fun heq => ?_⟩⟩
      rw [heq] at hcmp
      exact absurd hcmp (lt_irrefl _)

/-- Witness for `bestHeading_spec`, at the spec's example wind (10 kn from
100°) and runways 09 and 27. -/
theorem bestHeading_spec_witness :
    (bestHeading ⟨10, 100⟩ ⟨"09", 90⟩ = normalizeHeading 90 ∨
      bestHeading ⟨10, 100⟩ ⟨"09", 90⟩ = normalizeHeading (90 + 180))
    ∧ angularDiff 100 (bestHeading ⟨10, 100⟩ ⟨"27", 270⟩) ≤
        angularDiff 100 (normalizeHeading 270) :=
  ⟨(bestHeading_spec ⟨10, 100⟩ ⟨"09", 90⟩).1,
   ((bestHeading_spec ⟨10, 100⟩ ⟨"27", 270⟩).2.2.2 (by decide)).1⟩

/-!
## Claim C8: snapshot zero-count guard
-/

/-- Claim C8: `Snapshot` derives each average as cumulative total divided by
its count and returns 0.0 whenever the count is zero. -/
theorem Snapshot_zero_guard (m : SchedulerMetrics) :
    (m.arrivals = 0 → (Snapshot m).averageWaitSeconds = 0)
    ∧ (0 < m.arrivals → (Snapshot m).averageWaitSeconds =
        (m.totalWaitMicros : ℚ) / (m.arrivals : ℚ) / 1000000)
    ∧ (m.landings = 0 → (Snapshot m).averageLandingTime = 0)
    ∧ (0 < m.landings → (Snapshot m).averageLandingTime =
        (m.totalLandingMicros : ℚ) / (m.landings : ℚ) / 1000000) := by
  refine ⟨fun h => ?_, fun h => ?_, fun h => ?_, fun h => ?_⟩ <;>
    simp [Snapshot, h]

/-- Witness for `Snapshot_zero_guard`: a fresh metrics collector reports
both averages as exactly 0. -/
theorem Snapshot_zero_guard_witness :
    (Snapshot (NewSchedulerMetrics ["09", "27"])).averageWaitSeconds = 0
    ∧ (Snapshot (NewSchedulerMetrics ["09", "27"])).averageLandingTime = 0 :=
  ⟨(Snapshot_zero_guard _).1 rfl, (Snapshot_zero_guard _).2.2.1 rfl⟩

/-!
## Claim C9: rate clamping
-/

/-- Claim C9: `SetRate` stores 1 for non-positive rates and the given rate
otherwise, the constructor clamps the same way, and `Rate` always returns
an effective rate of at least 1. -/
theorem generator_rate_clamped (n d : ℤ) (g : Generator) :
    ((SetRate n g).ratePerMinute = if n ≤ 0 then 1 else n)
    ∧ (Rate (SetRate n g) = if n ≤ 0 then 1 else n)
    ∧ ((NewGenerator d).ratePerMinute = if d ≤ 0 then 1 else d)
    ∧ 1 ≤ Rate g := by
  refine ⟨rfl, ?_, rfl, ?_⟩
  · by_cases h : n ≤ 0
    · simp [Rate, SetRate, h]
    · simp only [Rate, SetRate, if_neg h]
  · rw [Rate]
    split
    · norm_num
    · rename_i h
      omega

/-! ## Scheduler state lemmas -/

theorem updateActiveHeadings_order (rm : RunwayManager) :
    (updateActiveHeadings rm).order = rm.order := rfl

theorem updateActiveHeadings_nextIdx (rm : RunwayManager) :
    (updateActiveHeadings rm).nextIdx = rm.nextIdx := rfl

theorem updateActiveHeadings_holding (rm : RunwayManager) :
    (updateActiveHeadings rm).holding = rm.holding := rfl

theorem updateActiveHeadings_assigned (rm : RunwayManager) :
    (updateActiveHeadings rm).assigned = rm.assigned := rfl

theorem updateActiveHeadings_vectors (rm : RunwayManager) :
    (updateActiveHeadings rm).vectors = rm.vectors := rfl

theorem updateActiveHeadings_lastUse (rm : RunwayManager) :
    (updateActiveHeadings rm).lastUse = rm.lastUse := rfl

theorem updateActiveHeadings_metrics (rm : RunwayManager) :
    (updateActiveHeadings rm).metrics = rm.metrics := rfl

theorem updateActiveHeadings_isOpen (rm : RunwayManager) (n : String) :
    ((updateActiveHeadings rm).runways n).map RunwayState.isOpen =
      (rm.runways n).map RunwayState.isOpen := by
  cases h : rm.runways n <;> simp [updateActiveHeadings, h]

theorem openRunways_updateActiveHeadings (rm : RunwayManager) :
    openRunways (updateActiveHeadings rm) = openRunways rm := by
  unfold openRunways
  rw [updateActiveHeadings_order]
  apply List.filter_congr
  intro n _
  rw [updateActiveHeadings_isOpen]

theorem openRunways_congr {rm1 rm2 : RunwayManager} (h1 : rm1.order = rm2.order)
    (h2 : rm1.runways = rm2.runways) : openRunways rm1 = openRunways rm2 := by
  unfold openRunways
  rw [h1, h2]

theorem nextRunway_of_empty (rm : RunwayManager) (h : openRunways rm = []) :
    nextRunway rm = (none, rm) := by
  simp [nextRunway, h]

theorem nextRunway_of_ne (rm : RunwayManager) (h : openRunways rm ≠ []) :
    nextRunway rm = ((openRunways rm)[rm.nextIdx % (openRunways rm).length]?,
      { rm with nextIdx := rm.nextIdx + 1 }) := by
  have hlen : (openRunways rm).length ≠ 0 := by
    simpa using h
  simp [nextRunway, hlen]

/-- The runway `AssignFlight` would pick from the given state (`""`/`none`
when every runway is closed); a pure function of the state. -/
def pickOf (rm : RunwayManager) : Option String :=
  (nextRunway (updateActiveHeadings rm)).1

theorem pickOf_of_ne {rm : RunwayManager} (h : openRunways rm ≠ []) :
    pickOf rm = (openRunways rm)[rm.nextIdx % (openRunways rm).length]? := by
  rw [pickOf, nextRunway_of_ne _ (by rwa [openRunways_updateActiveHeadings])]
  simp only [openRunways_updateActiveHeadings, updateActiveHeadings_nextIdx]

theorem pickOf_of_empty {rm : RunwayManager} (h : openRunways rm = []) :
    pickOf rm = none := by
  rw [pickOf, nextRunway_of_empty _ (by rwa [openRunways_updateActiveHeadings])]

theorem pickOf_isSome {rm : RunwayManager} (h : openRunways rm ≠ []) :
    ∃ R, pickOf rm = some R ∧ R ∈ openRunways rm := by
  have hpos : 0 < (openRunways rm).length := List.length_pos.mpr h
  have hlt : rm.nextIdx % (openRunways rm).length < (openRunways rm).length :=
    Nat.mod_lt _ hpos
  refine ⟨(openRunways rm)[rm.nextIdx % (openRunways rm).length], ?_, ?_⟩
  · rw [pickOf_of_ne h]
    exact List.getElem?_eq_getElem hlt
  · exact List.getElem_mem _

theorem AssignFlight_of_none {rm : RunwayManager} (t : ℤ) (f : Flight)
    (h : openRunways rm = []) :
    AssignFlight t f rm = holdFlight f (updateActiveHeadings rm) := by
  simp only [AssignFlight,
    nextRunway_of_empty _ (by rwa [openRunways_updateActiveHeadings])]

theorem AssignFlight_of_some {rm : RunwayManager} {R : String} (t : ℤ) (f : Flight)
    (h : pickOf rm = some R) :
    AssignFlight t f rm =
      assignToRunway t f R { updateActiveHeadings rm with nextIdx := rm.nextIdx + 1 } := by
  have hne : openRunways rm ≠ [] := by
    intro hcon
    rw [pickOf_of_empty hcon] at h
    exact Option.noConfusion h
  have hget : (openRunways rm)[rm.nextIdx % (openRunways rm).length]? = some R := by
    rw [← pickOf_of_ne hne, h]
  have hnr : nextRunway (updateActiveHeadings rm) =
      (some R, { updateActiveHeadings rm with nextIdx := rm.nextIdx + 1 }) := by
    rw [nextRunway_of_ne _ (by rwa [openRunways_updateActiveHeadings])]
    simp only [openRunways_updateActiveHeadings, updateActiveHeadings_nextIdx, hget]
  simp only [AssignFlight, hnr]

/-! ### Field-preservation lemmas for the small transition steps -/

theorem detectConflictLocked_eq (now : ℤ) (R : String) (rm : RunwayManager) :
    detectConflictLocked now R rm = rm ∨
    detectConflictLocked now R rm = { rm with metrics := RecordConflict rm.metrics } := by
  unfold detectConflictLocked
  cases rm.lastUse R
  · exact Or.inl rfl
  · dsimp only
    split
    · exact Or.inr rfl
    · exact Or.inl rfl

theorem detectConflictLocked_holding (now : ℤ) (R : String) (rm : RunwayManager) :
    (detectConflictLocked now R rm).holding = rm.holding := by
  rcases detectConflictLocked_eq now R rm with h | h <;> rw [h]

theorem detectConflictLocked_nextIdx (now : ℤ) (R : String) (rm : RunwayManager) :
    (detectConflictLocked now R rm).nextIdx = rm.nextIdx := by
  rcases detectConflictLocked_eq now R rm with h | h <;> rw [h]

theorem detectConflictLocked_runways (now : ℤ) (R : String) (rm : RunwayManager) :
    (detectConflictLocked now R rm).runways = rm.runways := by
  rcases detectConflictLocked_eq now R rm with h | h <;> rw [h]

theorem detectConflictLocked_order (now : ℤ) (R : String) (rm : RunwayManager) :
    (detectConflictLocked now R rm).order = rm.order := by
  rcases detectConflictLocked_eq now R rm with h | h <;> rw [h]

theorem detectConflictLocked_vectors (now : ℤ) (R : String) (rm : RunwayManager) :
    (detectConflictLocked now R rm).vectors = rm.vectors := by
  rcases detectConflictLocked_eq now R rm with h | h <;> rw [h]

theorem detectConflictLocked_assigned (now : ℤ) (R : String) (rm : RunwayManager) :
    (detectConflictLocked now R rm).assigned = rm.assigned := by
  rcases detectConflictLocked_eq now R rm with h | h <;> rw [h]

theorem detectConflictLocked_lastUse (now : ℤ) (R : String) (rm : RunwayManager) :
    (detectConflictLocked now R rm).lastUse = rm.lastUse := by
  rcases detectConflictLocked_eq now R rm with h | h <;> rw [h]

theorem detectConflictLocked_holdingCurrent (now : ℤ) (R : String) (rm : RunwayManager) :
    (detectConflictLocked now R rm).metrics.holdingCurrent =
      rm.metrics.holdingCurrent := by
  rcases detectConflictLocked_eq now R rm with h | h
  · rw [h]
  · rw [h]
    rfl

theorem detectConflictLocked_holdingTotal (now : ℤ) (R : String) (rm : RunwayManager) :
    (detectConflictLocked now R rm).metrics.holdingTotal =
      rm.metrics.holdingTotal := by
  rcases detectConflictLocked_eq now R rm with h | h
  · rw [h]
  · rw [h]
    rfl

theorem UpdateQueueLength_holdingCurrent (R : String) (c : ℤ) (m : SchedulerMetrics) :
    (UpdateQueueLength R c m).holdingCurrent = m.holdingCurrent := by
  unfold UpdateQueueLength
  cases m.queues R <;> rfl

theorem UpdateQueueLength_holdingTotal (R : String) (c : ℤ) (m : SchedulerMetrics) :
    (UpdateQueueLength R c m).holdingTotal = m.holdingTotal := by
  unfold UpdateQueueLength
  cases m.queues R <;> rfl

theorem UpdateQueueLength_conflicts (R : String) (c : ℤ) (m : SchedulerMetrics) :
    (UpdateQueueLength R c m).conflicts = m.conflicts := by
  unfold UpdateQueueLength
  cases m.queues R <;> rfl

theorem holdFlight_holding (f : Flight) (rm : RunwayManager) :
    (holdFlight f rm).holding = rm.holding ++ [f] := rfl

theorem holdFlight_nextIdx (f : Flight) (rm : RunwayManager) :
    (holdFlight f rm).nextIdx = rm.nextIdx := rfl

theorem holdFlight_runways (f : Flight) (rm : RunwayManager) :
    (holdFlight f rm).runways = rm.runways := rfl

theorem holdFlight_order (f : Flight) (rm : RunwayManager) :
    (holdFlight f rm).order = rm.order := rfl

theorem holdFlight_vectors (f : Flight) (rm : RunwayManager) :
    (holdFlight f rm).vectors = rm.vectors := rfl

theorem holdFlight_assigned (f : Flight) (rm : RunwayManager) :
    (holdFlight f rm).assigned = rm.assigned := rfl

theorem holdFlight_holdingCurrent (f : Flight) (rm : RunwayManager) :
    (holdFlight f rm).metrics.holdingCurrent = (rm.holding.length : ℤ) + 1 := by
  simp [holdFlight, publishHoldingLocked, recordHoldingLocked, SetHolding]

theorem holdFlight_holdingTotal (f : Flight) (rm : RunwayManager) :
    (holdFlight f rm).metrics.holdingTotal = rm.metrics.holdingTotal + 1 := by
  simp [holdFlight, publishHoldingLocked, recordHoldingLocked, SetHolding,
    RecordHoldingPattern]

theorem assignToRunway_holding (now : ℤ) (f : Flight) (R : String)
    (rm : RunwayManager) : (assignToRunway now f R rm).holding = rm.holding := by
  simp only [assignToRunway, publishQueuesLocked, recordAssignmentLocked,
    detectConflictLocked_holding]

theorem assignToRunway_nextIdx (now : ℤ) (f : Flight) (R : String)
    (rm : RunwayManager) : (assignToRunway now f R rm).nextIdx = rm.nextIdx := by
  simp only [assignToRunway, publishQueuesLocked, recordAssignmentLocked,
    detectConflictLocked_nextIdx]

theorem assignToRunway_runways (now : ℤ) (f : Flight) (R : String)
    (rm : RunwayManager) : (assignToRunway now f R rm).runways = rm.runways := by
  simp only [assignToRunway, publishQueuesLocked, recordAssignmentLocked,
    detectConflictLocked_runways]

theorem assignToRunway_order (now : ℤ) (f : Flight) (R : String)
    (rm : RunwayManager) : (assignToRunway now f R rm).order = rm.order := by
  simp only [assignToRunway, publishQueuesLocked, recordAssignmentLocked,
    detectConflictLocked_order]

theorem assignToRunway_holdingCurrent (now : ℤ) (f : Flight) (R : String)
    (rm : RunwayManager) : (assignToRunway now f R rm).metrics.holdingCurrent =
      rm.metrics.holdingCurrent := by
  simp only [assignToRunway, publishQueuesLocked, UpdateQueueLength_holdingCurrent,
    detectConflictLocked_holdingCurrent, recordAssignmentLocked, RecordAssignment]

theorem assignToRunway_holdingTotal (now : ℤ) (f : Flight) (R : String)
    (rm : RunwayManager) : (assignToRunway now f R rm).metrics.holdingTotal =
      rm.metrics.holdingTotal := by
  simp only [assignToRunway, publishQueuesLocked, UpdateQueueLength_holdingTotal,
    detectConflictLocked_holdingTotal, recordAssignmentLocked, RecordAssignment]

theorem assignToRunway_vectors (now : ℤ) (f : Flight) (R : String)
    (rm : RunwayManager) : (assignToRunway now f R rm).vectors = fun i =>
      if i = f.id then
        some (smoothVector ((rm.vectors f.id).getD 0)
          (((rm.runways R).map RunwayState.activeHeading).getD 0))
      else rm.vectors i := by
  simp only [assignToRunway, publishQueuesLocked, recordAssignmentLocked,
    detectConflictLocked_vectors]

theorem assignToRunway_assigned (now : ℤ) (f : Flight) (R : String)
    (rm : RunwayManager) : (assignToRunway now f R rm).assigned = fun n =>
      if n = R then rm.assigned R ++ [f] else rm.assigned n := by
  simp only [assignToRunway, publishQueuesLocked, recordAssignmentLocked,
    detectConflictLocked_assigned]

theorem assignToRunway_lastUse (now : ℤ) (f : Flight) (R : String)
    (rm : RunwayManager) : (assignToRunway now f R rm).lastUse = fun n =>
      if n = R then some now else rm.lastUse n := by
  simp only [assignToRunway, publishQueuesLocked, recordAssignmentLocked,
    detectConflictLocked_lastUse]

/-! ### `AssignFlight`-level lemmas -/

theorem AssignFlight_openRunways (t : ℤ) (f : Flight) (rm : RunwayManager) :
    openRunways (AssignFlight t f rm) = openRunways rm := by
  by_cases h : openRunways rm = []
  · rw [AssignFlight_of_none t f h]
    rw [openRunways_congr (holdFlight_order _ _) (holdFlight_runways _ _),
      openRunways_updateActiveHeadings, h]
  · obtain ⟨R, hR, _⟩ := pickOf_isSome h
    rw [AssignFlight_of_some t f hR]
    refine Eq.trans (openRunways_congr (assignToRunway_order _ _ _ _)
      (assignToRunway_runways _ _ _ _)) ?_
    exact openRunways_updateActiveHeadings rm

theorem AssignFlight_nextIdx_of_some {rm : RunwayManager} (t : ℤ) (f : Flight)
    (h : openRunways rm ≠ []) : (AssignFlight t f rm).nextIdx = rm.nextIdx + 1 := by
  obtain ⟨R, hR, _⟩ := pickOf_isSome h
  rw [AssignFlight_of_some t f hR, assignToRunway_nextIdx]

theorem AssignFlight_nextIdx_of_empty {rm : RunwayManager} (t : ℤ) (f : Flight)
    (h : openRunways rm = []) : (AssignFlight t f rm).nextIdx = rm.nextIdx := by
  rw [AssignFlight_of_none t f h, holdFlight_nextIdx]
  rfl

theorem AssignFlight_holding_of_empty {rm : RunwayManager} (t : ℤ) (f : Flight)
    (h : openRunways rm = []) :
    (AssignFlight t f rm).holding = rm.holding ++ [f] := by
  rw [AssignFlight_of_none t f h, holdFlight_holding]
  rfl

theorem AssignFlight_holding_of_some {rm : RunwayManager} (t : ℤ) (f : Flight)
    (h : openRunways rm ≠ []) : (AssignFlight t f rm).holding = rm.holding := by
  obtain ⟨R, hR, _⟩ := pickOf_isSome h
  rw [AssignFlight_of_some t f hR, assignToRunway_holding]
  rfl

theorem AssignFlight_holdingCurrent_of_some {rm : RunwayManager} (t : ℤ) (f : Flight)
    (h : openRunways rm ≠ []) :
    (AssignFlight t f rm).metrics.holdingCurrent = rm.metrics.holdingCurrent := by
  obtain ⟨R, hR, _⟩ := pickOf_isSome h
  rw [AssignFlight_of_some t f hR, assignToRunway_holdingCurrent]
  rfl

/-!
## Claim C3: round-robin assignment
-/

/-- The runway picked by each of a sequence of consecutive `AssignFlight`
calls (`none` records a diversion to holding). -/
def assignPicks (rm : RunwayManager) : List (ℤ × Flight) → List (Option String)
  | [] => []
  | p :: rest => pickOf rm :: assignPicks (AssignFlight p.1 p.2 rm) rest

theorem assignPicks_eq_range (pairs : List (ℤ × Flight)) :
    ∀ rm : RunwayManager, openRunways rm ≠ [] →
    assignPicks rm pairs = (List.range pairs.length).map
      (fun k => (openRunways rm)[(k + rm.nextIdx) % (openRunways rm).length]?) := by
  induction pairs with
  | nil =>
    intro rm _
    rfl
  | cons p rest ih =>
    intro rm h
    have hopen : openRunways (AssignFlight p.1 p.2 rm) ≠ [] := by
      rw [AssignFlight_openRunways]
      exact h
    rw [assignPicks, ih _ hopen, AssignFlight_openRunways,
      AssignFlight_nextIdx_of_some _ _ h, pickOf_of_ne h, List.length_cons,
      List.range_succ_eq_map, List.map_cons, List.map_map]
    congr 1
    · rw [Nat.zero_add]
    · apply List.map_congr_left
      intro k _
      simp only [Function.comp_apply]
      congr 2
      omega

theorem range_map_getElem?_eq_rotate (L : List String) (i : ℕ) (h : L ≠ []) :
    (List.range L.length).map (fun k => L[(k + i) % L.length]?) =
      (L.rotate i).map some := by
  have hpos : 0 < L.length := List.length_pos.mpr h
  apply List.ext_getElem?
  intro k
  by_cases hk : k < L.length
  · rw [List.getElem?_map, List.getElem?_map, List.getElem?_range hk,
      List.getElem?_rotate hk]
    have hlt : (k + i) % L.length < L.length := Nat.mod_lt _ hpos
    simp [List.getElem?_eq_getElem hlt]
  · have hk1 : ((List.range L.length).map
        (fun k => L[(k + i) % L.length]?)).length ≤ k := by
      simpa using Nat.le_of_not_lt hk
    have hk2 : ((L.rotate i).map some).length ≤ k := by
      simpa using Nat.le_of_not_lt hk
    rw [List.getElem?_eq_none hk1, List.getElem?_eq_none hk2]

/-- Claim C3: with the open-runway set fixed, `N` consecutive `AssignFlight`
calls pick the `N` open runways cyclically in scheduling order starting at
the cursor, hitting each open runway exactly once and never a closed one;
the cursor advances exactly on successful picks and a no-open-runway call
routes the flight to holding without advancing the cursor. -/
theorem AssignFlight_round_robin (rm : RunwayManager) (pairs : List (ℤ × Flight))
    (hne : openRunways rm ≠ [])
    (hlen : pairs.length = (openRunways rm).length) :
    assignPicks rm pairs = ((openRunways rm).rotate rm.nextIdx).map some
    ∧ ((openRunways rm).rotate rm.nextIdx).Perm (openRunways rm)
    ∧ (∀ s : String, ((assignPicks rm pairs).filterMap id).count s =
        (openRunways rm).count s)
    ∧ (∀ s : String, some s ∈ assignPicks rm pairs →
        ((rm.runways s).map RunwayState.isOpen).getD false = true)
    ∧ (∀ (t : ℤ) (f : Flight) (s : RunwayManager), openRunways s = [] →
        (AssignFlight t f s).nextIdx = s.nextIdx
        ∧ (AssignFlight t f s).holding = s.holding ++ [f])
    ∧ (∀ (t : ℤ) (f : Flight) (s : RunwayManager), openRunways s ≠ [] →
        (AssignFlight t f s).nextIdx = s.nextIdx + 1) := by
  have h1 : assignPicks rm pairs = ((openRunways rm).rotate rm.nextIdx).map some := by
    rw [assignPicks_eq_range pairs rm hne, hlen,
      range_map_getElem?_eq_rotate _ _ hne]
  refine ⟨h1, List.rotate_perm _ _, ?_, ?_, ?_, ?_⟩
  · intro s
    have h2 : (List.map some ((openRunways rm).rotate rm.nextIdx)).filterMap id =
        (openRunways rm).rotate rm.nextIdx := by
      simp
    rw [h1, h2]
    exact (List.rotate_perm _ _).count_eq s
  · intro s hs
    rw [h1] at hs
    have hmem : s ∈ (openRunways rm).rotate rm.nextIdx := by
      simpa using hs
    have hmem2 : s ∈ openRunways rm := (List.rotate_perm _ _).mem_iff.mp hmem
    exact (List.mem_filter.mp hmem2).2
  · intro t f s hs
    exact ⟨AssignFlight_nextIdx_of_empty t f hs, AssignFlight_holding_of_empty t f hs⟩
  · intro t f s hs
    exact AssignFlight_nextIdx_of_some t f hs

/-- The two-runway example airfield used by the concrete witnesses. -/
def exampleRM : RunwayManager :=
  NewRunwayManager [⟨"09", 90⟩, ⟨"27", 270⟩] (NewSchedulerMetrics ["09", "27"])

/-- Witness for `AssignFlight_round_robin`: two arrivals at the example
airfield cover both open runways in cursor order. -/
theorem AssignFlight_round_robin_witness :
    assignPicks exampleRM [(0, ⟨1, "F1", 0⟩), (0, ⟨2, "F2", 0⟩)] =
      ((openRunways exampleRM).rotate exampleRM.nextIdx).map some
    ∧ ∀ s : String,
        ((assignPicks exampleRM [(0, ⟨1, "F1", 0⟩), (0, ⟨2, "F2", 0⟩)]).filterMap id).count s =
          (openRunways exampleRM).count s :=
  ⟨(AssignFlight_round_robin exampleRM _ (by decide) (by decide)).1,
   (AssignFlight_round_robin exampleRM _ (by decide) (by decide)).2.2.1⟩

/-!
## Claim C7: spacing-conflict detection
-/

theorem detectConflictLocked_of_lt {rm : RunwayManager} {R : String} {last now : ℤ}
    (h : rm.lastUse R = some last) (hlt : now - last < minArrivalSpacing) :
    detectConflictLocked now R rm = { rm with metrics := RecordConflict rm.metrics } := by
  unfold detectConflictLocked
  rw [h]
  dsimp only
  rw [if_pos hlt]

theorem detectConflictLocked_of_ge {rm : RunwayManager} {R : String} {last now : ℤ}
    (h : rm.lastUse R = some last) (hge : ¬now - last < minArrivalSpacing) :
    detectConflictLocked now R rm = rm := by
  unfold detectConflictLocked
  rw [h]
  dsimp only
  rw [if_neg hge]

theorem assignToRunway_conflicts_lt {rm : RunwayManager} {R : String} {last : ℤ}
    (now : ℤ) (f : Flight) (h : rm.lastUse R = some last)
    (hlt : now - last < minArrivalSpacing) :
    (assignToRunway now f R rm).metrics.conflicts = rm.metrics.conflicts + 1 := by
  simp only [assignToRunway, publishQueuesLocked]
  rw [UpdateQueueLength_conflicts]
  have hS : ∀ s : RunwayManager, s.lastUse R = some last →
      s.metrics.conflicts = rm.metrics.conflicts →
      (detectConflictLocked now R s).metrics.conflicts = rm.metrics.conflicts + 1 := by
    intro s h1 h2
    rw [detectConflictLocked_of_lt h1 hlt]
    show (RecordConflict s.metrics).conflicts = rm.metrics.conflicts + 1
    rw [RecordConflict, h2]
  exact hS _ h rfl

theorem assignToRunway_conflicts_ge {rm : RunwayManager} {R : String} {last : ℤ}
    (now : ℤ) (f : Flight) (h : rm.lastUse R = some last)
    (hge : ¬now - last < minArrivalSpacing) :
    (assignToRunway now f R rm).metrics.conflicts = rm.metrics.conflicts := by
  simp only [assignToRunway, publishQueuesLocked]
  rw [UpdateQueueLength_conflicts]
  have hS : ∀ s : RunwayManager, s.lastUse R = some last →
      s.metrics.conflicts = rm.metrics.conflicts →
      (detectConflictLocked now R s).metrics.conflicts = rm.metrics.conflicts := by
    intro s h1 h2
    rw [detectConflictLocked_of_ge h1 hge, h2]
  exact hS _ h rfl

/-- Claim C7: when `AssignFlight` picks a runway whose last-use timestamp is
less than the 2-second minimum spacing before the current instant, the
conflict counter is incremented (by exactly one, hence at least once); when
the last use is 2 or more seconds earlier no conflict is recorded; and the
assignment re-stamps the runway's last-use timestamp with the current
instant, which is the basis for the next spacing measurement. -/
theorem AssignFlight_conflict_spec (rm : RunwayManager) (t : ℤ) (f : Flight)
    (R : String) (last : ℤ) (hpick : pickOf rm = some R)
    (hlast : rm.lastUse R = some last) :
    (t - last < minArrivalSpacing →
      (AssignFlight t f rm).metrics.conflicts = rm.metrics.conflicts + 1)
    ∧ (minArrivalSpacing ≤ t - last →
      (AssignFlight t f rm).metrics.conflicts = rm.metrics.conflicts)
    ∧ (AssignFlight t f rm).lastUse R = some t := by
  rw [AssignFlight_of_some t f hpick]
  refine ⟨fun hlt => ?_, fun hge => ?_, ?_⟩
  · exact assignToRunway_conflicts_lt t f hlast hlt
  · exact assignToRunway_conflicts_ge t f hlast (not_lt.mpr hge)
  · rw [assignToRunway_lastUse]
    simp

/-- The single-runway example airfield shared by the concrete scenarios. -/
def exampleRM1 : RunwayManager :=
  NewRunwayManager [⟨"R", 325⟩] (NewSchedulerMetrics ["R"])

/-- The example airfield after one flight is assigned at instant 0. -/
def exampleAssigned1 : RunwayManager :=
  AssignFlight 0 ⟨1, "F1", 0⟩ exampleRM1

/-- Witness for `AssignFlight_conflict_spec`: a second assignment 1 s after
the first records a conflict; one 4 s after does not. -/
theorem AssignFlight_conflict_spec_witness :
    (AssignFlight 1000000000 ⟨2, "F2", 1000000000⟩ exampleAssigned1).metrics.conflicts =
      exampleAssigned1.metrics.conflicts + 1
    ∧ (AssignFlight 4000000000 ⟨3, "F3", 4000000000⟩ exampleAssigned1).metrics.conflicts =
      exampleAssigned1.metrics.conflicts :=
  ⟨(AssignFlight_conflict_spec exampleAssigned1 1000000000 ⟨2, "F2", 1000000000⟩
      "R" 0 (by decide) (by decide)).1 (by decide),
   (AssignFlight_conflict_spec exampleAssigned1 4000000000 ⟨3, "F3", 4000000000⟩
      "R" 0 (by decide) (by decide)).2.1 (by decide)⟩

/-!
## Claim C4: closing a runway
-/

theorem RecordHoldingPattern_iterate (k : ℕ) (m : SchedulerMetrics) :
    RecordHoldingPattern^[k] m = { m with holdingTotal := m.holdingTotal + (k : ℤ) } := by
  induction k with
  | zero => simp
  | succ n ih =>
    rw [Function.iterate_succ_apply', ih]
    unfold RecordHoldingPattern
    congr 1
    push_cast
    ring

theorem SetRunwayClosed_close_noop {rm : RunwayManager} {name : String}
    {r : RunwayState} (now : ℤ) (hrn : rm.runways name = some r)
    (hcl : r.isOpen = false) : SetRunwayClosed now name true rm = rm := by
  unfold SetRunwayClosed
  rw [hrn]
  simp [hcl]

theorem SetRunwayClosed_close_eq {rm : RunwayManager} {name : String}
    {r : RunwayState} (now : ℤ) (hrn : rm.runways name = some r)
    (hop : r.isOpen = true) (hd : rm.assigned name ≠ []) :
    SetRunwayClosed now name true rm =
      publishHoldingLocked (recordHoldingLocked (rm.assigned name).length
        (publishQueuesLocked name
          { rm with
            runways := fun n =>
              if n = name then some { r with isOpen := false } else rm.runways n,
            holding := rm.holding ++ rm.assigned name,
            assigned := fun n => if n = name then [] else rm.assigned n })) := by
  unfold SetRunwayClosed
  rw [hrn]
  simp only [hop, Bool.not_true, Bool.false_eq_true, if_false, if_true]
  rw [if_pos (List.length_pos.mpr hd)]

theorem SetRunwayClosed_close_eq_nil {rm : RunwayManager} {name : String}
    {r : RunwayState} (now : ℤ) (hrn : rm.runways name = some r)
    (hop : r.isOpen = true) (hd : rm.assigned name = []) :
    SetRunwayClosed now name true rm =
      { rm with runways := fun n =>
          if n = name then some { r with isOpen := false } else rm.runways n } := by
  unfold SetRunwayClosed
  rw [hrn]
  simp only [hop, Bool.not_true, Bool.false_eq_true, if_false, if_true]
  rw [if_neg]
  simp [hd]

/-- Claim C4: closing an open runway holding `K` assigned flights appends
those `K` flights, order preserved, to the tail of holding, empties the
runway's queue, zeroes its queue gauge, adds `K` to the holding gauge
(which tracks `holding.length`) and to the lifetime holding count, and
marks the runway closed; closing an already-closed runway is a no-op. -/
theorem SetRunwayClosed_close_spec (rm : RunwayManager) (now : ℤ) (name : String)
    (hq : rm.metrics.queues name = some ((rm.assigned name).length : ℤ))
    (hh : rm.metrics.holdingCurrent = (rm.holding.length : ℤ)) :
    ((rm.runways name).map RunwayState.isOpen = some true →
      (SetRunwayClosed now name true rm).holding = rm.holding ++ rm.assigned name
      ∧ (SetRunwayClosed now name true rm).assigned name = []
      ∧ ((SetRunwayClosed now name true rm).runways name).map RunwayState.isOpen =
          some false
      ∧ (SetRunwayClosed now name true rm).metrics.queues name = some 0
      ∧ (SetRunwayClosed now name true rm).metrics.holdingCurrent =
          (rm.holding.length : ℤ) + ((rm.assigned name).length : ℤ)
      ∧ (SetRunwayClosed now name true rm).metrics.holdingTotal =
          rm.metrics.holdingTotal + ((rm.assigned name).length : ℤ))
    ∧ ((rm.runways name).map RunwayState.isOpen = some false →
      SetRunwayClosed now name true rm = rm) := by
  constructor
  · intro hop
    obtain ⟨r, hrn, hiso⟩ : ∃ r, rm.runways name = some r ∧ r.isOpen = true := by
      cases hrn : rm.runways name with
      | none => rw [hrn] at hop; exact Option.noConfusion hop
      | some r =>
        rw [hrn] at hop
        exact ⟨r, rfl, by simpa using hop⟩
    by_cases hd : rm.assigned name = []
    · rw [SetRunwayClosed_close_eq_nil now hrn hiso hd]
      refine ⟨by simp [hd], by simp [hd], by simp, ?_, ?_, ?_⟩
      · show rm.metrics.queues name = some 0
        rw [hq, hd]
        rfl
      · show rm.metrics.holdingCurrent = _
        rw [hh, hd]
        simp
      · show rm.metrics.holdingTotal = _
        rw [hd]
        simp
    · rw [SetRunwayClosed_close_eq now hrn hiso hd]
      refine ⟨rfl, by simp [publishHoldingLocked, recordHoldingLocked, publishQueuesLocked],
        by simp [publishHoldingLocked, recordHoldingLocked, publishQueuesLocked], ?_, ?_, ?_⟩
      · show (RecordHoldingPattern^[(rm.assigned name).length]
            (UpdateQueueLength name _ rm.metrics)).queues name = some 0
        rw [RecordHoldingPattern_iterate]
        show (UpdateQueueLength name
          ((((fun n => if n = name then ([] : List Flight) else rm.assigned n) name).length : ℤ))
          rm.metrics).queues name = some 0
        rw [UpdateQueueLength]
        rw [hq]
        simp
      · show ((rm.holding ++ rm.assigned name).length : ℤ) = _
        simp
      · show (RecordHoldingPattern^[(rm.assigned name).length]
            (UpdateQueueLength name _ rm.metrics)).holdingTotal = _
        rw [RecordHoldingPattern_iterate]
        show (UpdateQueueLength name _ rm.metrics).holdingTotal + _ = _
        rw [UpdateQueueLength_holdingTotal]
  · intro hcl
    obtain ⟨r, hrn, hiso⟩ : ∃ r, rm.runways name = some r ∧ r.isOpen = false := by
      cases hrn : rm.runways name with
      | none => rw [hrn] at hcl; exact Option.noConfusion hcl
      | some r =>
        rw [hrn] at hcl
        exact ⟨r, rfl, by simpa using hcl⟩
    exact SetRunwayClosed_close_noop now hrn hiso

/-- Witness for `SetRunwayClosed_close_spec`: closing the example runway
with one assigned flight diverts it and updates the gauges. -/
theorem SetRunwayClosed_close_spec_witness :
    (SetRunwayClosed 5 "R" true exampleAssigned1).holding =
      exampleAssigned1.holding ++ exampleAssigned1.assigned "R"
    ∧ (SetRunwayClosed 5 "R" true exampleAssigned1).metrics.queues "R" = some 0
    ∧ (SetRunwayClosed 5 "R" true exampleAssigned1).metrics.holdingCurrent =
      (exampleAssigned1.holding.length : ℤ) +
        ((exampleAssigned1.assigned "R").length : ℤ) :=
  (fun h => ⟨h.1, h.2.2.2.1, h.2.2.2.2.1⟩)
    ((SetRunwayClosed_close_spec exampleAssigned1 5 "R" (by decide) (by decide)).1
      (by decide))

/-!
## Claim C5: reopening a runway
-/

theorem SetRunwayClosed_open_noop {rm : RunwayManager} {name : String}
    {r : RunwayState} (now : ℤ) (hrn : rm.runways name = some r)
    (hop : r.isOpen = true) : SetRunwayClosed now name false rm = rm := by
  unfold SetRunwayClosed
  rw [hrn]
  simp [hop]

theorem SetRunwayClosed_open_eq {rm : RunwayManager} {name : String}
    {r : RunwayState} (now : ℤ) (hrn : rm.runways name = some r)
    (hcl : r.isOpen = false) :
    SetRunwayClosed now name false rm =
      rm.holding.foldl (fun s f => AssignFlight now f s)
        (publishHoldingLocked
          { rm with
            runways := fun n =>
              if n = name then some { r with isOpen := true } else rm.runways n,
            holding := [] }) := by
  unfold SetRunwayClosed
  rw [hrn]
  simp only [hcl, Bool.false_eq_true, if_false]

theorem foldl_AssignFlight_invariant (now : ℤ) (fs : List Flight) :
    ∀ s : RunwayManager, openRunways s ≠ [] →
      (fs.foldl (fun a f => AssignFlight now f a) s).holding = s.holding
      ∧ (fs.foldl (fun a f => AssignFlight now f a) s).metrics.holdingCurrent =
          s.metrics.holdingCurrent
      ∧ openRunways (fs.foldl (fun a f => AssignFlight now f a) s) = openRunways s := by
  induction fs with
  | nil =>
    intro s _
    exact ⟨rfl, rfl, rfl⟩
  | cons f rest ih =>
    intro s h
    rw [List.foldl_cons]
    have h2 : openRunways (AssignFlight now f s) ≠ [] := by
      rw [AssignFlight_openRunways]
      exact h
    obtain ⟨ih1, ih2, ih3⟩ := ih _ h2
    refine ⟨?_, ?_, ?_⟩
    · rw [ih1, AssignFlight_holding_of_some now f h]
    · rw [ih2, AssignFlight_holdingCurrent_of_some now f h]
    · rw [ih3, AssignFlight_openRunways]

/-- Claim C5: reopening a closed runway drains the whole holding queue,
re-invokes `AssignFlight` once per held flight in original order on the
reopened state, sets the holding gauge to 0, and (as long as every runway
stays open during the drain, which it does absent concurrent closures)
leaves the holding queue empty and the gauge at 0 afterwards; reopening an
already-open runway is a no-op. -/
theorem SetRunwayClosed_open_spec (rm : RunwayManager) (now : ℤ) (name : String)
    (hmem : name ∈ rm.order) :
    ((rm.runways name).map RunwayState.isOpen = some true →
      SetRunwayClosed now name false rm = rm)
    ∧ ((rm.runways name).map RunwayState.isOpen = some false →
      (∃ r, rm.runways name = some r ∧
        SetRunwayClosed now name false rm =
          rm.holding.foldl (fun s f => AssignFlight now f s)
            (publishHoldingLocked
              { rm with
                runways := fun n =>
                  if n = name then some { r with isOpen := true } else rm.runways n,
                holding := [] }))
      ∧ (SetRunwayClosed now name false rm).holding = []
      ∧ (SetRunwayClosed now name false rm).metrics.holdingCurrent = 0) := by
  constructor
  · intro hop
    obtain ⟨r, hrn, hiso⟩ : ∃ r, rm.runways name = some r ∧ r.isOpen = true := by
      cases hrn : rm.runways name with
      | none => rw [hrn] at hop; exact Option.noConfusion hop
      | some r =>
        rw [hrn] at hop
        exact ⟨r, rfl, by simpa using hop⟩
    exact SetRunwayClosed_open_noop now hrn hiso
  · intro hcl
    obtain ⟨r, hrn, hiso⟩ : ∃ r, rm.runways name = some r ∧ r.isOpen = false := by
      cases hrn : rm.runways name with
      | none => rw [hrn] at hcl; exact Option.noConfusion hcl
      | some r =>
        rw [hrn] at hcl
        exact ⟨r, rfl, by simpa using hcl⟩
    have heq := SetRunwayClosed_open_eq now hrn hiso
    have hbopen : openRunways (publishHoldingLocked
        { rm with
          runways := fun n =>
            if n = name then some { r with isOpen := true } else rm.runways n,
          holding := [] }) ≠ [] := by
      have hin : name ∈ openRunways (publishHoldingLocked
          { rm with
            runways := fun n =>
              if n = name then some { r with isOpen := true } else rm.runways n,
            holding := [] }) := by
        apply List.mem_filter.mpr
        refine ⟨hmem, ?_⟩
        simp [publishHoldingLocked]
      intro hcon
      rw [hcon] at hin
      exact absurd hin (List.not_mem_nil _)
    obtain ⟨hf1, hf2, _⟩ := foldl_AssignFlight_invariant now rm.holding _ hbopen
    refine ⟨⟨r, hrn, heq⟩, ?_, ?_⟩
    · rw [heq, hf1]
      rfl
    · rw [heq, hf2]
      rfl

/-- The example airfield after its only runway is closed, diverting the
assigned flight to holding. -/
def exampleClosed1 : RunwayManager := SetRunwayClosed 5 "R" true exampleAssigned1

/-- Witness for `SetRunwayClosed_open_spec`: reopening the closed example
runway empties holding and zeroes the holding gauge. -/
theorem SetRunwayClosed_open_spec_witness :
    (SetRunwayClosed 10 "R" false exampleClosed1).holding = []
    ∧ (SetRunwayClosed 10 "R" false exampleClosed1).metrics.holdingCurrent = 0 :=
  (fun h => ⟨h.2.1, h.2.2⟩)
    ((SetRunwayClosed_open_spec exampleClosed1 10 "R" (by decide)).2 (by decide))

/-!
## Claim C6: vector map lifecycle
-/

/-- Claim C6 (amended): a successful assignment creates (or refreshes) the
flight's `vectors` entry, a holding diversion leaves the map unchanged, and
`completeLanding` — the transition that removes a landed flight from every
queue — never removes its `vectors` entry: the map is never pruned. -/
theorem vectors_lifecycle (rm : RunwayManager) (t aT : ℤ) (f : Flight) (R : String)
    (fl : Flight) :
    (completeLanding t R fl aT rm).vectors = rm.vectors
    ∧ (openRunways rm ≠ [] → ((AssignFlight t f rm).vectors f.id).isSome = true)
    ∧ (openRunways rm = [] → (AssignFlight t f rm).vectors = rm.vectors) := by
  refine ⟨rfl, fun hne => ?_, fun he => ?_⟩
  · obtain ⟨R', hR, _⟩ := pickOf_isSome hne
    rw [AssignFlight_of_some t f hR, assignToRunway_vectors]
    simp
  · rw [AssignFlight_of_none t f he]
    rfl

/-- The example airfield after the assigned flight's landing completes. -/
def exampleLanded1 : RunwayManager :=
  completeLanding 5000000000 "R" ⟨1, "F1", 0⟩ 0 exampleAssigned1

/-- Counterexample to claim C6 as stated: after the landing completes the
flight is gone from every queue, yet its `vectors` entry is still present. -/
theorem vectors_removed_counterexample :
    exampleLanded1.assigned "R" = []
    ∧ exampleLanded1.holding = []
    ∧ (exampleLanded1.vectors 1).isSome = true := by
  decide

/-- Witness for `vectors_lifecycle` at the example airfield. -/
theorem vectors_lifecycle_witness :
    ((AssignFlight 0 ⟨1, "F1", 0⟩ exampleRM1).vectors 1).isSome = true :=
  (vectors_lifecycle exampleRM1 0 0 ⟨1, "F1", 0⟩ "R" ⟨9, "X", 0⟩).2.1 (by decide)

/-!
## Claim C1, counterexample to the original statement

A flight assigned to the 325-degree runway and re-vectored toward 145
(clamped to +35 per step) reaches a tracked heading of exactly 0 after one
`SetWind`; the next `SetWind`-triggered re-vectoring then snaps it from 0
straight to 145 — an angular change of 145 degrees in a single invocation.
-/

/-- Counterexample to claim C1 as stated: on a reachable state the flight's
tracked heading is exactly 0, and a single `SetWind`-triggered re-vectoring
moves it to 145, an angular change of 145 > 35 degrees. -/
theorem smoothVector_turn_bound_counterexample :
    (SetWind 10 145 exampleAssigned1).vectors 1 = some 0
    ∧ (SetWind 10 145 (SetWind 10 145 exampleAssigned1)).vectors 1 = some 145
    ∧ ¬(angularDiff 0 145 ≤ 35) := by
  refine ⟨?_, ?_, ?_⟩
  · norm_num [exampleAssigned1, exampleRM1, AssignFlight, NewRunwayManager,
      NewSchedulerMetrics, updateActiveHeadings, nextRunway, openRunways, holdFlight,
      assignToRunway, recordAssignmentLocked, detectConflictLocked, publishQueuesLocked,
      RecordAssignment, UpdateQueueLength, smoothVector, bestHeading, normalizeHeading,
      signedAngularDiff, angularDiff, goMod360, ratTrunc, minArrivalSpacing,
      SetWind, revectorLocked, revectorRunway, revectorFlight,
      (show maxInt64 10 0 = 10 by decide), (show normalizeDirection 145 = 145 by decide),
      abs]
  · norm_num [exampleAssigned1, exampleRM1, AssignFlight, NewRunwayManager,
      NewSchedulerMetrics, updateActiveHeadings, nextRunway, openRunways, holdFlight,
      assignToRunway, recordAssignmentLocked, detectConflictLocked, publishQueuesLocked,
      RecordAssignment, UpdateQueueLength, smoothVector, bestHeading, normalizeHeading,
      signedAngularDiff, angularDiff, goMod360, ratTrunc, minArrivalSpacing,
      SetWind, revectorLocked, revectorRunway, revectorFlight,
      (show maxInt64 10 0 = 10 by decide), (show normalizeDirection 145 = 145 by decide),
      abs]
  · norm_num [angularDiff, signedAngularDiff, goMod360, ratTrunc, abs]

end AirCommand
